import Mathlib

/-!
# Verification of the ftp4go FTP client against its specification

Shallow embedding of the protocol-engine and tree-orchestrator code of the
ftp4go repository (Go), together with theorems settling the specification
claims.  All strings handled by the claims are ASCII, so Go's byte-indexed
string operations coincide with character-indexed operations here.
-/

namespace Ftp4go

/-! ## Go primitives -/

/-- Go string slicing `s[i:j]`.  Returns `none` when the bounds are out of
range, which in Go is a runtime panic (`slice bounds out of range`). -/
def goSlice (s : String) (i j : Nat) : Option String :=
  if i ≤ j ∧ j ≤ s.length then some (String.mk ((s.toList.drop i).take (j - i))) else none

/-- Go `strings.ToLower` restricted to ASCII input. -/
def toLowerStr (s : String) : String :=
  String.mk (s.toList.map Char.toLower)

/-- Go `unicode.IsSpace` restricted to the ASCII white space characters. -/
def isSpaceChar (c : Char) : Bool :=
  c = ' ' ∨ c = '\t' ∨ c = '\n' ∨ c = '\r'

/-- Go `strings.TrimSpace` restricted to ASCII input. -/
def trimSpace (s : String) : String :=
  String.mk (((s.toList.dropWhile isSpaceChar).reverse.dropWhile isSpaceChar).reverse)

/-- Go's bytewise `<` on strings, on the character lists (coincides with the
byte order on the ASCII strings the claims involve). -/
def goLtChars : List Char → List Char → Bool
  | [], [] => false
  | [], _ :: _ => true
  | _ :: _, [] => false
  | a :: as, b :: bs =>
    if a.toNat < b.toNat then true
    else if b.toNat < a.toNat then false
    else goLtChars as bs

/-- Go `a < b` on strings. -/
def goLt (a b : String) : Bool := goLtChars a.toList b.toList

/-- Go `a <= b` on strings. -/
def goLe (a b : String) : Bool := !(goLt b a)

/-- Numeric value of a digit string (the value `strconv.Atoi` returns on an
all-digit string, ignoring 64-bit overflow, which no claim exercises). -/
def atoiDigits (s : String) : Nat :=
  s.toList.foldl (fun n c => n * 10 + (c.toNat - 48)) 0

/-- Go `strconv.Atoi` with the error discarded, as in `size, _ = strconv.Atoi(...)`:
on a valid optionally-signed digit string it returns the value, on anything
else `Atoi` returns an error and value 0. -/
def atoiGo (s : String) : Int :=
  match s.toList with
  | [] => 0
  | '-' :: ds => if ds ≠ [] ∧ ds.all Char.isDigit then -(atoiDigits (String.mk ds) : Int) else 0
  | '+' :: ds => if ds ≠ [] ∧ ds.all Char.isDigit then (atoiDigits (String.mk ds) : Int) else 0
  | ds => if ds.all Char.isDigit then (atoiDigits (String.mk ds) : Int) else 0

/-! ## Reply data model

`Response` is the struct of the same name in the source: a reply code and the
reply message (the unused `Stream` field is omitted). -/

structure Response where
  Code : Nat
  Message : String
deriving DecidableEq

/-! ## parse257 (claim C4)

Embeds `parse257` from the current reply-codec file: reject a non-257 code
with a protocol error; if `Message[3:5]` is not `space quote` return an empty
name with no error; otherwise scan from index 5, decoding doubled quotes and
stopping at a quote not followed by another quote. -/

inductive P257 where
  | panicked
  | proto (msg : String)
  | ok (dirname : String)
deriving DecidableEq

/-- The character scan loop of `parse257`, started at index 5 of the message.
A `'"'` followed by another `'"'` appends one literal `'"'` and skips both; a
`'"'` not followed by `'"'` (or at the end) breaks out of the loop; any other
character is appended. -/
def scan257 : List Char → String → String
  | [], acc => acc
  | c :: rest, acc =>
    if c = '"' then
      match rest with
      | '"' :: rest2 => scan257 rest2 (acc.push '"')
      | _ => acc
    else scan257 rest (acc.push c)

/-- `parse257(resp)`.  `resp.Message[3:5]` panics in Go when the message is
shorter than 5 bytes, modelled by `P257.panicked`. -/
def parse257 (resp : Response) : P257 :=
  if resp.Code ≠ 257 then .proto resp.Message
  else
    match goSlice resp.Message 3 5 with
    | none => .panicked
    | some pre =>
      if pre ≠ " \"" then .ok ""
      else .ok (scan257 (resp.Message.toList.drop 5) "")

/-! ## parse227 (claim C7)

Embeds `parse227`: a non-227 code is a protocol error; otherwise the message
is scanned for the first (leftmost) match of the regular expression
`([0-9]+),([0-9]+),([0-9]+),([0-9]+),([0-9]+),([0-9]+)`; no match is a
protocol error; otherwise the host is the first four groups dot-joined and
the port is `(p1 << 8) + p2`.  For this pattern the regular-expression match
is deterministic: each group is the maximal digit run at its position (a
shorter run would leave a digit where `,` is required), and the leftmost
match is found by trying every start position left to right. -/

structure Groups6 where
  g1 : String
  g2 : String
  g3 : String
  g4 : String
  g5 : String
  g6 : String
deriving DecidableEq

/-- Maximal digit run at the head of the character list, and the rest. -/
def digitSpan (cs : List Char) : List Char × List Char :=
  (cs.takeWhile Char.isDigit, cs.dropWhile Char.isDigit)

/-- Match `[0-9]+,` at the head: a nonempty digit run followed by a comma. -/
def groupThenComma (cs : List Char) : Option (String × List Char) :=
  let ds := cs.takeWhile Char.isDigit
  if ds = [] then none
  else
    match cs.dropWhile Char.isDigit with
    | ',' :: rest2 => some (String.mk ds, rest2)
    | _ => none

/-- Match the final `[0-9]+` group at the head. -/
def lastGroup (cs : List Char) : Option String :=
  let ds := cs.takeWhile Char.isDigit
  if ds = [] then none else some (String.mk ds)

/-- Try to match the six comma-separated digit groups starting exactly here. -/
def matchSixAt (cs : List Char) : Option Groups6 := do
  let (g1, r1) ← groupThenComma cs
  let (g2, r2) ← groupThenComma r1
  let (g3, r3) ← groupThenComma r2
  let (g4, r4) ← groupThenComma r3
  let (g5, r5) ← groupThenComma r4
  let g6 ← lastGroup r5
  pure ⟨g1, g2, g3, g4, g5, g6⟩

/-- Leftmost match of the six-group pattern (`regexp.FindStringSubmatch`). -/
def findMatch227 : List Char → Option Groups6
  | [] => none
  | c :: rest =>
    match matchSixAt (c :: rest) with
    | some g => some g
    | none => findMatch227 rest

inductive P227 where
  | proto (msg : String)
  | ok (host : String) (port : Nat)
deriving DecidableEq

def parse227 (resp : Response) : P227 :=
  if resp.Code ≠ 227 then .proto resp.Message
  else
    match findMatch227 resp.Message.toList with
    | none => .proto ("No matching pattern for message:" ++ resp.Message)
    | some g =>
      .ok (g.g1 ++ "." ++ g.g2 ++ "." ++ g.g3 ++ "." ++ g.g4)
         ((atoiDigits g.g5) <<< 8 + atoiDigits g.g6)

/-! ## readMultiLine (claim C5)

Embeds the `readMultiLine` codec of the repository's reply-reader file: the
server's line stream is modelled as the list of lines still unread; a
`readLine` on the exhausted stream returns `("", EOF)` (bufio/textproto
`ReadLine` never returns data together with an error).  The code tolerates
the EOF error and then slices the empty line, which panics in Go
(`RmlOut.panicked`).  Go's `&&` short-circuits, so `nextline[3:4]` is sliced
only when `nextline[:3]` equals the code. -/

/-- `strings.Join`-style concatenation with a separator. -/
def joinWith (sep : String) : List String → String
  | [] => ""
  | [s] => s
  | s :: rest => s ++ sep ++ joinWith sep rest

/-- The newline joining performed by the multi-line loop. -/
def joinNL : List String → String := joinWith "\n"

inductive RmlOut where
  | panicked
  | ok (text : String)
deriving DecidableEq

/-- The continuation loop of `readMultiLine`, entered when byte 4 of the
first line is `'-'`.  `acc` is the `line` variable accumulated so far. -/
def rmlLoop (code : String) : String → List String → RmlOut
  | _, [] => .panicked
  | acc, next :: rest =>
    let acc2 := acc ++ "\n" ++ next
    match goSlice next 0 3 with
    | none => .panicked
    | some pre =>
      if pre = code then
        match goSlice next 3 4 with
        | none => .panicked
        | some b4 => if b4 ≠ "-" then .ok acc2 else rmlLoop code acc2 rest
      else rmlLoop code acc2 rest

/-- `readMultiLine` on the list of lines the server will deliver before EOF. -/
def readMultiLine : List String → RmlOut
  | [] => .panicked
  | line :: rest =>
    match goSlice line 3 4 with
    | none => .panicked
    | some b =>
      if b = "-" then
        match goSlice line 0 3 with
        | none => .panicked
        | some code => rmlLoop code line rest
      else .ok line

/-! ## Reply classification, Login (claim C6) and Size (claim C10)

The control channel's `Read` classifies a received reply by the first digit
of its code: classes 1/2/3 are returned to the caller, class 4 becomes a
temporary error, class 5 a permanent error, anything else a protocol error.
The reply stream is modelled as the list of `(code, message)` pairs the
server will produce; reading from an exhausted stream is `FtpError.hang`
(the real code would block forever). -/

inductive FtpError where
  | temp (msg : String)
  | perm (msg : String)
  | proto (msg : String)
  | reply (msg : String)
  | hang
deriving DecidableEq

/-- Result of a `SendAndRead`: either a reply or an error. -/
inductive RR where
  | ok (resp : Response)
  | err (e : FtpError)
deriving DecidableEq

/-- `strconv.Itoa` digit list (fuel-based; faithful for numbers below 10^32,
far beyond any reply code). -/
def natDigits : Nat → Nat → List Char
  | 0, _ => []
  | _ + 1, 0 => []
  | fuel + 1, n => natDigits fuel (n / 10) ++ [Char.ofNat (48 + n % 10)]

/-- `strconv.Itoa` for the non-negative codes the reader produces. -/
def itoa (n : Nat) : String :=
  if n = 0 then "0" else String.mk (natDigits 32 n)

/-- `strconv.Itoa(code)[0:1]`: the class digit of a reply code. -/
def classOf (code : Nat) : String :=
  String.mk ((itoa code).toList.take 1)

/-- `Response.getFirstChar` on a non-nil response. -/
def getFirstChar (r : Response) : String := classOf r.Code

/-- The classification switch of `Read`, applied to the code/message pair
delivered by the transport. -/
def readReply (code : Nat) (msg : String) : RR :=
  let c := classOf code
  if c = "1" ∨ c = "2" ∨ c = "3" then .ok ⟨code, msg⟩
  else if c = "4" then .err (.temp ("Temporary error: " ++ msg))
  else if c = "5" then .err (.perm ("Permanent error: " ++ msg))
  else .err (.proto ("Protocol error: " ++ msg))

/-- `FtpCmd.AppendParameters`: the verb followed by the trimmed, non-empty
parameters, space-joined. -/
def appendParameters (cmdStr : String) (pars : List String) : String :=
  joinWith " " (cmdStr :: (pars.map trimSpace).filter (fun p => p.length > 0))

/-- The FTP command enumeration of the source. -/
inductive FtpCmd where
  | NONE_FTP_CMD
  | USER_FTP_CMD
  | PASSWORD_FTP_CMD
  | ACCT_FTP_CMD
  | ABORT_FTP_CMD
  | PORT_FTP_CMD
  | PASV_FTP_CMD
  | TYPE_A_FTP_CMD
  | NLST_FTP_CMD
  | LIST_FTP_CMD
  | FEAT_FTP_CMD
  | OPTS_FTP_CMD
  | RETR_FTP_CMD
  | TYPE_I_FTP_CMD
  | STORE_FTP_CMD
  | RENAMEFROM_FTP_CMD
  | RENAMETO_FTP_CMD
  | DELETE_FTP_CMD
  | CWD_FTP_CMD
  | SIZE_FTP_CMD
  | MKDIR_FTP_CMD
  | RMDIR_FTP_CMD
  | PWDIR_FTP_CMD
  | CDUP_FTP_CMD
  | QUIT_FTP_CMD
  | MLSD_FTP_CMD
deriving DecidableEq

/-- The `ftpCmdStrings` lookup table (every enumeration key is present). -/
def ftpCmdStrings : FtpCmd → String
  | .NONE_FTP_CMD => ""
  | .USER_FTP_CMD => "USER"
  | .PASSWORD_FTP_CMD => "PASS"
  | .ACCT_FTP_CMD => "ACCT"
  | .ABORT_FTP_CMD => "ABOR"
  | .PORT_FTP_CMD => "PORT"
  | .PASV_FTP_CMD => "PASV"
  | .TYPE_A_FTP_CMD => "TYPE A"
  | .NLST_FTP_CMD => "NLST"
  | .LIST_FTP_CMD => "LIST"
  | .FEAT_FTP_CMD => "FEAT"
  | .OPTS_FTP_CMD => "OPTS"
  | .RETR_FTP_CMD => "RETR"
  | .TYPE_I_FTP_CMD => "TYPE I"
  | .STORE_FTP_CMD => "STOR"
  | .RENAMEFROM_FTP_CMD => "RNFR"
  | .RENAMETO_FTP_CMD => "RNTO"
  | .DELETE_FTP_CMD => "DELE"
  | .CWD_FTP_CMD => "CWD"
  | .SIZE_FTP_CMD => "SIZE"
  | .MKDIR_FTP_CMD => "MKD"
  | .RMDIR_FTP_CMD => "RMD"
  | .PWDIR_FTP_CMD => "PWD"
  | .CDUP_FTP_CMD => "CDUP"
  | .QUIT_FTP_CMD => "QUIT"
  | .MLSD_FTP_CMD => "MLSD"

/-- All 26 enumeration values, in declaration order. -/
def allFtpCmds : List FtpCmd :=
  [.NONE_FTP_CMD, .USER_FTP_CMD, .PASSWORD_FTP_CMD, .ACCT_FTP_CMD, .ABORT_FTP_CMD,
   .PORT_FTP_CMD, .PASV_FTP_CMD, .TYPE_A_FTP_CMD, .NLST_FTP_CMD, .LIST_FTP_CMD,
   .FEAT_FTP_CMD, .OPTS_FTP_CMD, .RETR_FTP_CMD, .TYPE_I_FTP_CMD, .STORE_FTP_CMD,
   .RENAMEFROM_FTP_CMD, .RENAMETO_FTP_CMD, .DELETE_FTP_CMD, .CWD_FTP_CMD,
   .SIZE_FTP_CMD, .MKDIR_FTP_CMD, .RMDIR_FTP_CMD, .PWDIR_FTP_CMD, .CDUP_FTP_CMD,
   .QUIT_FTP_CMD, .MLSD_FTP_CMD]

/-- Outcome of a `Login` call: the full command lines sent on the control
channel, in order, and the returned value. -/
structure LoginRun where
  cmds : List String
  result : RR
deriving DecidableEq

/-- The tail of `Login` shared by all paths: possibly send ACCT when the
current reply is still class 3, then require class 2 or fail with the
`NewErrReply` error. -/
def loginFinish (t : Response) (cmds : List String) : LoginRun :=
  if getFirstChar t ≠ "2" then ⟨cmds, .err (.reply ("Reply error: " ++ t.Message))⟩
  else ⟨cmds, .ok t⟩

def loginAcctStage (acct : String) (t : Response) (rest : List (Nat × String))
    (cmds : List String) : LoginRun :=
  if getFirstChar t = "3" then
    let acctCmd := appendParameters (ftpCmdStrings .ACCT_FTP_CMD) [acct]
    match rest with
    | [] => ⟨cmds ++ [acctCmd], .err .hang⟩
    | (c3, m3) :: _ =>
      match readReply c3 m3 with
      | .err e => ⟨cmds ++ [acctCmd], .err e⟩
      | .ok t3 => loginFinish t3 (cmds ++ [acctCmd])
  else loginFinish t cmds

/-- The username `Login` sends: `if len(username) == 0`, default to
"anonymous". -/
def effectiveUser (u : String) : String :=
  if u.length = 0 then "anonymous" else u

/-- The password `Login` sends when PASS is needed, after its two defaulting
statements: `if len(password) == 0 { password = "" }` (the identity, since a
length-0 string is already "") and then, for the anonymous user with an
empty password, `password = password + "anonymous@"`, i.e. "anonymous@". -/
def effectivePass (u p : String) : String :=
  if effectiveUser u = "anonymous" ∧ p.length = 0 then "anonymous@" else p

/-- `Login(username, password, acct)` run against the modelled reply stream:
default the username to "anonymous" when empty, default the password to
"anonymous@" for a passwordless anonymous login, send USER, send PASS only
on a class-3 reply, send ACCT only when the reply is still class 3, and
require a final class-2 reply. -/
def login (username password acct : String) (replies : List (Nat × String)) : LoginRun :=
  let username := effectiveUser username
  let password :=
    if username = "anonymous" ∧ password.length = 0 then "anonymous@" else password
  let userCmd := appendParameters (ftpCmdStrings .USER_FTP_CMD) [username]
  match replies with
  | [] => ⟨[userCmd], .err .hang⟩
  | (c1, m1) :: r1 =>
    match readReply c1 m1 with
    | .err e => ⟨[userCmd], .err e⟩
    | .ok t1 =>
      if getFirstChar t1 = "3" then
        let passCmd := appendParameters (ftpCmdStrings .PASSWORD_FTP_CMD) [password]
        match r1 with
        | [] => ⟨[userCmd, passCmd], .err .hang⟩
        | (c2, m2) :: r2 =>
          match readReply c2 m2 with
          | .err e => ⟨[userCmd, passCmd], .err e⟩
          | .ok t2 => loginAcctStage acct t2 r2 [userCmd, passCmd]
      else loginAcctStage acct t1 r1 [userCmd]

/-- Go `s[i:]`: `none` is the runtime panic on `i > len(s)`. -/
def goSliceFrom (s : String) (i : Nat) : Option String :=
  if i ≤ s.length then some (String.mk (s.toList.drop i)) else none

inductive SizeOut where
  | nilPanic
  | slicePanic
  | ok (size : Int) (e : Option FtpError)
deriving DecidableEq

/-- `Size(filename)` applied to the outcome of its `SendAndRead`.  The source
reads `response.Code` before inspecting `err`; when `SendAndRead` failed the
response is nil and the field access is a nil-pointer dereference
(`SizeOut.nilPanic`).  On a 213 reply it parses `Message[3:]` and returns a
nil error; on any other successfully read reply it returns `(0, nil)`. -/
def sizeCall (sr : RR) : SizeOut :=
  match sr with
  | .err _ => .nilPanic
  | .ok resp =>
    if resp.Code = 213 then
      match goSliceFrom resp.Message 3 with
      | none => .slicePanic
      | some tail => .ok (atoiGo (trimSpace tail)) none
    else .ok 0 none

/-! ## Passive-mode host selection in transferCmd (claim C3)

In passive mode `transferCmd` compares `ftp.conn.LocalAddr().Network()`
against the host parsed from the 227 reply and substitutes `ftp.Host` when
they differ.  For a TCP control connection `LocalAddr()` is a `*net.TCPAddr`
whose `Network()` method returns the constant string "tcp", so the
comparison is between the literal "tcp" and a host name or address. -/

/-- `net.TCPAddr.Network()`. -/
def tcpAddrNetwork : String := "tcp"

/-- The host actually dialed for the data connection: the parsed PASV host
survives only when it equals the `Network()` string of the control
connection's local address. -/
def pasvDialHost (localAddrNetwork ftpHost pasvHost : String) : String :=
  if localAddrNetwork ≠ pasvHost then ftpHost else pasvHost

/-- The `host:port` pair dialed in passive mode: the substituted host and,
always, the port parsed from the 227 reply. -/
def pasvDialAddr (localAddrNetwork ftpHost pasvHost : String) (pasvPort : Nat) : String × Nat :=
  (pasvDialHost localAddrNetwork ftpHost pasvHost, pasvPort)

/-! ## DownloadFile (claim C1)

`DownloadFile(remotename, localpath, useLineMode)` first removes the local
file, then opens it with `os.O_WRONLY|os.O_CREATE|os.O_TRUNC`, then issues a
RETR transfer through `GetLines` (line mode) or `GetBytes` (binary).  It
takes no byte offset, and the `FtpCmd` enumeration/table has no REST
command. -/

inductive OpenFlag where
  | O_RDONLY
  | O_WRONLY
  | O_CREATE
  | O_TRUNC
  | O_APPEND
deriving DecidableEq

inductive FileAction where
  | remove (path : String)
  | openFile (path : String) (flags : List OpenFlag)
deriving DecidableEq

/-- The local-file preparation `DownloadFile` performs, for either mode:
`os.Remove(localpath)` followed by
`os.OpenFile(localpath, os.O_WRONLY|os.O_CREATE|os.O_TRUNC, 0644)`. -/
def downloadFileLocalActions (localpath : String) : List FileAction :=
  [.remove localpath, .openFile localpath [.O_WRONLY, .O_CREATE, .O_TRUNC]]

/-- The transfer command `DownloadFile` issues for a download in either mode
(`GetLines(RETR_FTP_CMD, ...)` or `GetBytes(RETR_FTP_CMD, ...)`). -/
def downloadFileTransferCmd (useLineMode : Bool) : FtpCmd :=
  if useLineMode then .RETR_FTP_CMD else .RETR_FTP_CMD

/-- Whether any command of the enumeration maps to the string "REST". -/
def hasRestCommand : Bool :=
  allFtpCmds.any fun c => ftpCmdStrings c == "REST"

/-! ## UploadDirTree (claims C2, C8, C9)

The local tree is modelled as an `Entry` tree; `filepath.Glob` plus
`sort.Strings` is modelled by pre-sorting every directory's children by name
(sibling names share the directory-path prefix, so sorting the globbed paths
orders siblings exactly by name).  Remote structural commands (MKD/CWD)
succeed in this model except the initial CWD into the remote root, whose
outcome is the explicit `cwdRootOk` flag; a file upload fails exactly when
its local path is listed in `fails`.  The trace records the control commands
issued in order; `Cwd("..")` is recorded as `TCmd.cdup` because `Cwd`
translates ".." into a CDUP command. -/

inductive Entry where
  | file (name : String)
  | dir (name : String) (children : List Entry)

def entryName : Entry → String
  | .file n => n
  | .dir n _ => n

/-- Insertion in ascending name order. -/
def insertByName (e : Entry) : List Entry → List Entry
  | [] => [e]
  | x :: xs => if goLe (entryName e) (entryName x) then e :: x :: xs else x :: insertByName e xs

/-- `filepath.Glob` + `sort.Strings` on one directory: the children ordered
ascending by name (sibling glob results share the directory prefix, so
sorting the globbed paths orders siblings exactly by name). -/
def sortByName : List Entry → List Entry
  | [] => []
  | e :: es => insertByName e (sortByName es)

/-- Insertion in ascending order (`sort.StringSlice.Sort`). -/
def insertString (s : String) : List String → List String
  | [] => [s]
  | x :: xs => if goLe s x then s :: x :: xs else x :: insertString s xs

def sortStrings : List String → List String
  | [] => []
  | s :: ss => insertString s (sortStrings ss)

/-- The `for _, v := range exDirs { v = strings.ToLower(v) }` loop of
`UploadDirTree`: `v` is the per-iteration copy of the slice element, so the
assignment lowercases only that copy and the slice itself is returned
unchanged. -/
def lowerLoopEffect (exDirs : List String) : List String :=
  let _ := exDirs.map toLowerStr
  exDirs

/-- The exclusion set as `UploadDirTree` builds it: empty unless the caller
passed entries, otherwise the caller's entries (the lowercasing loop has no
effect on them) sorted ascending. -/
def prepareExcludedDirs (excludedDirs : List String) : List String :=
  if excludedDirs.length > 0 then sortStrings (lowerLoopEffect excludedDirs) else []

/-- Go's `sort.Search(n, f)` binary search loop: the smallest index in
`[i, j)` satisfying `f`, assuming `f` monotone.  The first argument is
recursion fuel, a totality device only: the loop halves `j - i` each
iteration, so any fuel of at least `n + 1` (as `searchStrings` supplies)
never reaches the fuel-exhaustion clause. -/
def sortSearchLoopF : Nat → (Nat → Bool) → Nat → Nat → Nat
  | 0, _, i, _ => i
  | fuel + 1, f, i, j =>
    if i < j then
      let m := (i + j) / 2
      if f m then sortSearchLoopF fuel f i m else sortSearchLoopF fuel f (m + 1) j
    else i

/-- `sort.SearchStrings(a, x)`. -/
def searchStrings (a : List String) (x : String) : Nat :=
  sortSearchLoopF (a.length + 1) (fun i => goLe x (a.getD i "")) 0 a.length

/-- The exclusion test of `uploadDirTree`: only performed when the set is
non-empty; the folder name is lowercased, binary-searched in the set, and
excluded when the entry found equals it exactly. -/
def isExcludedCheck (excludedDirs : List String) (fname : String) : Bool :=
  if excludedDirs.length > 0 then
    let lfname := toLowerStr fname
    let idx := searchStrings excludedDirs lfname
    decide (idx < excludedDirs.length ∧ excludedDirs.getD idx "" = lfname)
  else false

inductive TCmd where
  | mkd (dirname : String)
  | cwd (dirname : String)
  | cdup
  | stor (remotename : String) (localpath : String)
deriving DecidableEq

/-- `filepath.Base`: the path component after the last separator. -/
def baseName (path : String) : String :=
  String.mk ((path.toList.reverse.takeWhile (fun c => c ≠ '/')).reverse)

mutual

/-- Node count bound for an entry, used as recursion fuel. -/
def entrySize : Entry → Nat
  | .file _ => 1
  | .dir _ ch => 1 + entryListSize ch

/-- Node count bound for an entry list, used as recursion fuel. -/
def entryListSize : List Entry → Nat
  | [] => 1
  | e :: es => entrySize e + entryListSize es

end

/-- The entry loop of `uploadDirTree` on one directory's (sorted) listing:
files are uploaded in order (binary, counted on success, aborting the loop
on the first failure); a sub-directory is skipped when the exclusion check
fires, otherwise `uploadDirTree` is entered recursively — the recursive call
sorts its own level's glob results, issues `MKD`/`CWD` for the sub-directory
name, and runs the deferred `Cwd("..")` (CDUP) on every exit path, error
exits included.  Returns the command trace, the number of files uploaded,
and whether the walk completed without error.  The first argument is
recursion fuel, a totality device only: every recursive call strictly
shrinks the entry list, so any fuel of at least `entryListSize` of the list
(as the wrappers below supply) never reaches the fuel-exhaustion clause. -/
def entryLoopF : Nat → List String → List String → String → List Entry →
    List TCmd × Nat × Bool
  | 0, _, _, _, _ => ([], 0, true)
  | _ + 1, _, _, _, [] => ([], 0, true)
  | fuel + 1, fails, excl, localDir, .file f :: rest =>
    let lp := localDir ++ "/" ++ f
    if fails.contains lp then ([TCmd.stor f lp], 0, false)
    else
      let r := entryLoopF fuel fails excl localDir rest
      (TCmd.stor f lp :: r.1, r.2.1 + 1, r.2.2)
  | fuel + 1, fails, excl, localDir, .dir d ch :: rest =>
    if isExcludedCheck excl d then entryLoopF fuel fails excl localDir rest
    else
      let sub := entryLoopF fuel fails excl (localDir ++ "/" ++ d) (sortByName ch)
      let r1 : List TCmd × Nat × Bool :=
        (TCmd.mkd d :: TCmd.cwd d :: (sub.1 ++ [TCmd.cdup]), sub.2.1, sub.2.2)
      if r1.2.2 then
        let r2 := entryLoopF fuel fails excl localDir rest
        (r1.1 ++ r2.1, r1.2.1 + r2.2.1, r2.2.2)
      else r1

/-- One `uploadDirTree(localDir, ...)` call on the children of `localDir`:
MKD/CWD into `filepath.Base(localDir)`, sort the globbed entries, process
them, deferred CDUP on exit. -/
def runUploadDirTree (fails excl : List String) (localDir : String)
    (children : List Entry) : List TCmd × Nat × Bool :=
  let dir := baseName localDir
  let sub := entryLoopF (entryListSize children) fails excl localDir (sortByName children)
  (TCmd.mkd dir :: TCmd.cwd dir :: (sub.1 ++ [TCmd.cdup]), sub.2.1, sub.2.2)

inductive TreeErr where
  | invalidRoot
  | uploadFailed
deriving DecidableEq

structure TreeRun where
  trace : List TCmd
  count : Nat
  err : Option TreeErr
deriving DecidableEq

/-- `UploadDirTree(localDir, remoteRootDir, maxSimultaneousConns,
excludedDirs, callback)`: reject an empty remote root; `Pwd` (modelled as
succeeding with value `pwd`); CWD into the remote root — on failure return
the zero count with a nil error; otherwise build the exclusion set, walk the
tree, and restore the working directory by the deferred `Cwd(pwd)` on exit.
`maxSimultaneousConns` is accepted but never read. -/
def UploadDirTreeRun (fails : List String) (cwdRootOk : Bool) (pwd localDir : String)
    (children : List Entry) (remoteRootDir : String) (maxSimultaneousConns : Nat)
    (excludedDirs : List String) : TreeRun :=
  if remoteRootDir.length = 0 then ⟨[], 0, some .invalidRoot⟩
  else if cwdRootOk = false then ⟨[TCmd.cwd remoteRootDir], 0, none⟩
  else
    let exDirs := prepareExcludedDirs excludedDirs
    let r := runUploadDirTree fails exDirs localDir children
    ⟨TCmd.cwd remoteRootDir :: (r.1 ++ [TCmd.cwd pwd]), r.2.1,
      if r.2.2 then none else some .uploadFailed⟩

/-! ## Theorems settling the claims -/

/-- C1 (counterexample): the claim presupposes a download resume: a REST
command sent with the offset and the local destination opened for append.
The command enumeration maps no command to "REST", and `DownloadFile` — the
only download entry point — always removes the destination and reopens it
with `O_WRONLY|O_CREATE|O_TRUNC` (truncate, no append flag), so no resume
can be requested and no append-at-offset open ever happens. -/
theorem C1_counterexample :
    hasRestCommand = false ∧
    downloadFileLocalActions "file.part" =
      [FileAction.remove "file.part",
       FileAction.openFile "file.part" [.O_WRONLY, .O_CREATE, .O_TRUNC]] ∧
    OpenFlag.O_APPEND ∉ [OpenFlag.O_WRONLY, OpenFlag.O_CREATE, OpenFlag.O_TRUNC] := by
  decide

/-- C1 (amended): the client provides no resume support at all: for every
download, in either mode, `DownloadFile` removes the local destination and
opens it write-only with create+truncate (never append), then issues a plain
RETR; the FTP command set of the client contains no REST command, so no
byte offset can be sent; there is no resume-specific configuration error for
line mode because resume cannot be requested in any mode. -/
theorem C1_theorem (localpath : String) (useLineMode : Bool) :
    downloadFileLocalActions localpath =
      [FileAction.remove localpath,
       FileAction.openFile localpath [.O_WRONLY, .O_CREATE, .O_TRUNC]] ∧
    OpenFlag.O_APPEND ∉ [OpenFlag.O_WRONLY, OpenFlag.O_CREATE, OpenFlag.O_TRUNC] ∧
    downloadFileTransferCmd useLineMode = .RETR_FTP_CMD ∧
    hasRestCommand = false := by
  refine ⟨rfl, by decide, ?_, by decide⟩
  cases useLineMode <;> rfl

/-- C2: a directory named "FOO" whose lowercased name "foo" appears in the
lowercased exclusion set (the caller passed ["FOO"]) is nevertheless entered:
the `for _, v := range exDirs` loop lowercases only the per-iteration copy,
so the stored set stays ["FOO"], the binary search for "foo" misses it, and
the walk issues MKD/CWD for the directory and counts its file.  With the
same directory and the lowercase caller entry ["foo"] the exclusion does
fire, isolating the divergence to the letter case of the caller's entries. -/
theorem C2_theorem :
    toLowerStr "FOO" ∈ (prepareExcludedDirs ["FOO"]).map toLowerStr ∧
    (UploadDirTreeRun [] true "/home" "test" [.dir "FOO" [.file "a"]] "/r" 1 ["FOO"]).count = 1 ∧
    TCmd.mkd "FOO" ∈
      (UploadDirTreeRun [] true "/home" "test" [.dir "FOO" [.file "a"]] "/r" 1 ["FOO"]).trace ∧
    TCmd.cwd "FOO" ∈
      (UploadDirTreeRun [] true "/home" "test" [.dir "FOO" [.file "a"]] "/r" 1 ["FOO"]).trace ∧
    (UploadDirTreeRun [] true "/home" "test" [.dir "FOO" [.file "a"]] "/r" 1 ["foo"]).count = 0 ∧
    TCmd.mkd "FOO" ∉
      (UploadDirTreeRun [] true "/home" "test" [.dir "FOO" [.file "a"]] "/r" 1 ["foo"]).trace := by
  decide

/-- C3: the passive-mode host check compares the parsed PASV host against
`LocalAddr().Network()`, the constant "tcp" — not against the control
connection's remote endpoint.  Hence for every parsed host other than the
string "tcp" the originally dialed host is substituted, even when the parsed
host equals the control connection's remote endpoint identity (for example
192.0.2.7 below); the port is always the parsed one. -/
theorem C3_theorem :
    tcpAddrNetwork = "tcp" ∧
    (∀ ftpHost pasvHost : String, ∀ pasvPort : Nat, pasvHost ≠ tcpAddrNetwork →
      pasvDialAddr tcpAddrNetwork ftpHost pasvHost pasvPort = (ftpHost, pasvPort)) := by
  refine ⟨rfl, ?_⟩
  intro ftpHost pasvHost pasvPort h
  simp [pasvDialAddr, pasvDialHost, Ne.symm h]

/-- C3 (witness): the control connection's remote endpoint is 192.0.2.7 and
the 227 reply reports exactly that host, yet the originally dialed host is
substituted. -/
theorem C3_witness :
    pasvDialAddr tcpAddrNetwork "ftp.example.com" "192.0.2.7" 51256 = ("ftp.example.com", 51256) :=
  C3_theorem.2 "ftp.example.com" "192.0.2.7" 51256 (by decide)

/-- C8 (counterexample): with worker count 5 and two sibling files of which
the first upload fails, dispatching the level to a worker pool and awaiting
all results would still issue the second file's STOR; in the code the second
STOR is never issued, the count is 0, and the run is byte-identical to the
run with worker count 1 — uploads are inline and sequential, the worker
count is ignored. -/
theorem C8_counterexample :
    (UploadDirTreeRun ["test/a"] true "/home" "test" [.file "a", .file "b"] "/r" 5 []).count = 0 ∧
    TCmd.stor "a" "test/a" ∈
      (UploadDirTreeRun ["test/a"] true "/home" "test" [.file "a", .file "b"] "/r" 5 []).trace ∧
    TCmd.stor "b" "test/b" ∉
      (UploadDirTreeRun ["test/a"] true "/home" "test" [.file "a", .file "b"] "/r" 5 []).trace ∧
    UploadDirTreeRun ["test/a"] true "/home" "test" [.file "a", .file "b"] "/r" 5 [] =
      UploadDirTreeRun ["test/a"] true "/home" "test" [.file "a", .file "b"] "/r" 1 [] := by
  decide

/-- C8 (amended): `maxSimultaneousConns` is accepted but ignored — the run
is identical for any two worker counts — and file uploads within a directory
are performed strictly sequentially inline: a failing upload ends the
directory's entry loop immediately, so each upload's result is observed
before the next sibling upload starts and at most one data connection exists
at a time. -/
theorem C8_theorem :
    (∀ fails : List String, ∀ ok : Bool, ∀ pwd localDir : String, ∀ children : List Entry,
      ∀ remoteRootDir : String, ∀ excl : List String, ∀ n m : Nat,
      UploadDirTreeRun fails ok pwd localDir children remoteRootDir n excl =
        UploadDirTreeRun fails ok pwd localDir children remoteRootDir m excl) ∧
    (∀ fuel : Nat, ∀ fails excl : List String, ∀ localDir f : String, ∀ rest : List Entry,
      fails.contains (localDir ++ "/" ++ f) = true →
      entryLoopF (fuel + 1) fails excl localDir (.file f :: rest) =
        ([TCmd.stor f (localDir ++ "/" ++ f)], 0, false)) := by
  constructor
  · intro fails ok pwd localDir children remoteRootDir excl n m
    rfl
  · intro fuel fails excl localDir f rest h
    simp only [entryLoopF, h, if_true, reduceIte]

/-- C8 (witness): concrete instances of both amended facts. -/
theorem C8_witness :
    UploadDirTreeRun [] true "/h" "d" [.file "x"] "/r" 7 [] =
      UploadDirTreeRun [] true "/h" "d" [.file "x"] "/r" 1 [] ∧
    entryLoopF 1 ["d/x"] [] "d" [.file "x", .file "y"] = ([TCmd.stor "x" "d/x"], 0, false) :=
  ⟨C8_theorem.1 [] true "/h" "d" [.file "x"] "/r" [] 7 1,
   C8_theorem.2 0 ["d/x"] [] "d" "x" [.file "y"] (by decide)⟩

/-- C9: when the initial CWD into the remote root fails (and the root is
non-empty, so the parameter check passed), `UploadDirTree` returns
immediately: the only command issued is the failed CWD, the uploaded-file
count is 0, and the returned error is nil — the failure is swallowed. -/
theorem C9_theorem (fails : List String) (pwd localDir : String) (children : List Entry)
    (remoteRootDir : String) (n : Nat) (excl : List String)
    (hroot : remoteRootDir.length ≠ 0) :
    UploadDirTreeRun fails false pwd localDir children remoteRootDir n excl =
      ⟨[TCmd.cwd remoteRootDir], 0, none⟩ := by
  simp [UploadDirTreeRun, hroot]

/-- C9 (witness). -/
theorem C9_witness :
    UploadDirTreeRun ["x"] false "/h" "test" [.file "a"] "/root" 1 ["skip"] =
      ⟨[TCmd.cwd "/root"], 0, none⟩ :=
  C9_theorem ["x"] "/h" "test" [.file "a"] "/root" 1 ["skip"] (by decide)

/-- C4 (counterexample): on the claim's second example message the scan
decodes the doubled quotes but never meets a lone closing quote, so it runs
to the end of the message: the result is `a"b" created`, not the claimed
`a"b"`. -/
theorem C4_counterexample :
    parse257 ⟨257, "257 \"a\"\"b\"\" created"⟩ = .ok "a\"b\" created" ∧
    parse257 ⟨257, "257 \"a\"\"b\"\" created"⟩ ≠ .ok "a\"b\"" := by
  decide

/-- C4 (amended): `parse257` on `257 "/home/bob" is current directory`
yields `/home/bob`; on `257 "a""b"" created` it yields `a"b" created`
(doubled quotes decode to literal quotes, and with no lone terminating quote
the scan consumes the rest of the message); when the `Message[3:5]` slice
exists but is not `space quote`, it returns an empty name and no error; a
non-257 code is a protocol error. -/
theorem C4_theorem :
    parse257 ⟨257, "257 \"/home/bob\" is current directory"⟩ = .ok "/home/bob" ∧
    parse257 ⟨257, "257 \"a\"\"b\"\" created"⟩ = .ok "a\"b\" created" ∧
    (∀ r : Response, r.Code = 257 → ∀ pre : String,
      goSlice r.Message 3 5 = some pre → pre ≠ " \"" → parse257 r = .ok "") ∧
    (∀ r : Response, r.Code ≠ 257 → parse257 r = .proto r.Message) := by
  refine ⟨by decide, by decide, ?_, ?_⟩
  · intro r h pre hs hne
    simp [parse257, h, hs, hne]
  · intro r h
    simp [parse257, h]

/-- C4 (witness): concrete instances of the prefix-absent and wrong-code
branches. -/
theorem C4_witness :
    parse257 ⟨257, "257_no_quote_here"⟩ = .ok "" ∧
    parse257 ⟨500, "oops"⟩ = .proto "oops" :=
  ⟨C4_theorem.2.2.1 ⟨257, "257_no_quote_here"⟩ rfl "_n" (by decide) (by decide),
   C4_theorem.2.2.2 ⟨500, "oops"⟩ (by decide)⟩

/-! ### Claim C5 -/

/-- A line the multi-line loop passes over without terminating or
panicking: its `[:3]` slice exists, and if that slice equals the reply code
then its 4th byte exists and is `'-'`. -/
def interiorLine (code p : String) : Prop :=
  goSlice p 0 3 ≠ none ∧ (goSlice p 0 3 = some code → goSlice p 3 4 = some "-")

instance (code p : String) : Decidable (interiorLine code p) := by
  unfold interiorLine
  infer_instance

theorem joinNL_cons (s : String) (l : List String) (h : l ≠ []) :
    joinNL (s :: l) = s ++ "\n" ++ joinNL l := by
  cases l with
  | nil => exact absurd rfl h
  | cons a as => rfl

theorem rmlLoop_reaches_terminator (code : String) (pre : List String) (t : String)
    (rest : List String) (acc : String)
    (hpre : ∀ p ∈ pre, interiorLine code p)
    (ht3 : goSlice t 0 3 = some code)
    (ht4 : goSlice t 3 4 ≠ none) (htd : goSlice t 3 4 ≠ some "-") :
    rmlLoop code acc (pre ++ t :: rest) = .ok (acc ++ "\n" ++ joinNL (pre ++ [t])) := by
  induction pre generalizing acc with
  | nil =>
    cases h4 : goSlice t 3 4 with
    | none => exact absurd h4 ht4
    | some b =>
      have hb : b ≠ "-" := by
        rintro rfl
        exact htd h4
      simp [rmlLoop, ht3, h4, hb, joinNL, joinWith]
  | cons p ps ih =>
    obtain ⟨hp3, hpimp⟩ := hpre p (List.mem_cons_self p ps)
    have hps : ∀ q ∈ ps, interiorLine code q := fun q hq => hpre q (List.mem_cons_of_mem p hq)
    have hne : ps ++ [t] ≠ [] := by simp
    cases h3 : goSlice p 0 3 with
    | none => exact absurd h3 hp3
    | some s =>
      by_cases hs : s = code
      · have h3c : goSlice p 0 3 = some code := by rw [h3, hs]
        have h4 : goSlice p 3 4 = some "-" := hpimp h3c
        calc rmlLoop code acc ((p :: ps) ++ t :: rest)
            = rmlLoop code (acc ++ "\n" ++ p) (ps ++ t :: rest) := by
              simp [rmlLoop, h3, hs, h4]
          _ = .ok (acc ++ "\n" ++ p ++ "\n" ++ joinNL (ps ++ [t])) := by
              rw [ih (acc ++ "\n" ++ p) hps]
          _ = .ok (acc ++ "\n" ++ joinNL (p :: (ps ++ [t]))) := by
              rw [joinNL_cons p (ps ++ [t]) hne]
              simp [String.append_assoc]
      · calc rmlLoop code acc ((p :: ps) ++ t :: rest)
            = rmlLoop code (acc ++ "\n" ++ p) (ps ++ t :: rest) := by
              simp [rmlLoop, h3, hs]
          _ = .ok (acc ++ "\n" ++ p ++ "\n" ++ joinNL (ps ++ [t])) := by
              rw [ih (acc ++ "\n" ++ p) hps]
          _ = .ok (acc ++ "\n" ++ joinNL (p :: (ps ++ [t]))) := by
              rw [joinNL_cons p (ps ++ [t]) hne]
              simp [String.append_assoc]

theorem rmlLoop_eof (code : String) (pre : List String) (acc : String)
    (hpre : ∀ p ∈ pre, interiorLine code p) :
    rmlLoop code acc pre = .panicked := by
  induction pre generalizing acc with
  | nil => rfl
  | cons p ps ih =>
    obtain ⟨hp3, hpimp⟩ := hpre p (List.mem_cons_self p ps)
    have hps : ∀ q ∈ ps, interiorLine code q := fun q hq => hpre q (List.mem_cons_of_mem p hq)
    cases h3 : goSlice p 0 3 with
    | none => exact absurd h3 hp3
    | some s =>
      by_cases hs : s = code
      · have h4 : goSlice p 3 4 = some "-" := hpimp (by rw [h3, hs])
        simp only [rmlLoop, h3, hs, h4]
        simp only [if_pos rfl, reduceIte]
        exact ih (acc ++ "\n" ++ p) hps
      · simp only [rmlLoop, h3]
        rw [if_neg hs]
        exact ih (acc ++ "\n" ++ p) hps

/-- C5 (amended): when the first line's 4th byte is `'-'`, the reader joins
subsequent lines with newlines and stops at the first line whose first three
bytes equal the original code and whose 4th byte is not `'-'` — a line whose
4th byte is a space included, but also any other non-dash byte, so it may
stop on an interior line that merely starts with the same three digits (see
the counterexample); interior lines are passed over only if they are no such
line.  If EOF is reached before a terminating line, the reader panics
slicing the empty line returned at EOF (a Go runtime panic, not a
ProtocolError). -/
theorem C5_theorem (code f t : String) (pre rest : List String)
    (hf3 : goSlice f 0 3 = some code) (hf4 : goSlice f 3 4 = some "-")
    (hpre : ∀ p ∈ pre, interiorLine code p)
    (ht3 : goSlice t 0 3 = some code)
    (ht4 : goSlice t 3 4 ≠ none) (htd : goSlice t 3 4 ≠ some "-") :
    readMultiLine (f :: (pre ++ t :: rest)) = .ok (joinNL ((f :: pre) ++ [t])) ∧
    readMultiLine (f :: pre) = .panicked := by
  have hstart : ∀ l : List String, readMultiLine (f :: l) = rmlLoop code f l := by
    intro l
    simp [readMultiLine, hf4, hf3]
  constructor
  · rw [hstart, rmlLoop_reaches_terminator code pre t rest f hpre ht3 ht4 htd,
      List.cons_append, joinNL_cons f (pre ++ [t]) (by simp)]
  · rw [hstart, rmlLoop_eof code pre f hpre]

/-- C5 (witness): the general theorem instantiated on a well-formed
multi-line reply with one unrelated interior line and one continuation
line. -/
theorem C5_witness :
    readMultiLine ["230-a", "xyz w", "230-mid", "230 ok", "junk"] =
      .ok "230-a\nxyz w\n230-mid\n230 ok" ∧
    readMultiLine ["230-a", "xyz w", "230-mid"] = .panicked :=
  C5_theorem "230" "230-a" "230 ok" ["xyz w", "230-mid"] ["junk"]
    (by decide) (by decide) (by decide) (by decide) (by decide) (by decide)

/-- C5 (counterexample): the interior line "230Z oops" starts with the same
three digits "230" and its 4th byte is 'Z', not a space; the claim says the
reader must not stop there, but it does, dropping the true terminator
"230 done".  And on EOF before a terminator the read does not fail with a
ProtocolError: it panics slicing the empty line returned at EOF. -/
theorem C5_counterexample :
    readMultiLine ["230-hello", "230Z oops", "230 done"] = .ok "230-hello\n230Z oops" ∧
    readMultiLine ["230-hello", "230Z oops", "230 done"] ≠
      .ok "230-hello\n230Z oops\n230 done" ∧
    readMultiLine ["230-hello"] = .panicked := by
  decide

/-- C7: `parse227` on the claim's example yields host 127.0.0.1 and port
200*256+56 = 51256; a non-227 code is a protocol error; a 227 reply whose
message has no six-group match is a protocol error; and whenever the
leftmost match has groups g1..g6 the result is the first four groups
dot-joined and port g5*256+g6. -/
theorem C7_theorem :
    parse227 ⟨227, "227 Entering Passive Mode (127,0,0,1,200,56)"⟩ = .ok "127.0.0.1" 51256 ∧
    (∀ r : Response, r.Code ≠ 227 → parse227 r = .proto r.Message) ∧
    (∀ r : Response, r.Code = 227 → findMatch227 r.Message.toList = none →
      parse227 r = .proto ("No matching pattern for message:" ++ r.Message)) ∧
    (∀ r : Response, ∀ g : Groups6, r.Code = 227 → findMatch227 r.Message.toList = some g →
      parse227 r = .ok (g.g1 ++ "." ++ g.g2 ++ "." ++ g.g3 ++ "." ++ g.g4)
        (atoiDigits g.g5 * 256 + atoiDigits g.g6)) := by
  refine ⟨by decide, ?_, ?_, ?_⟩
  · intro r h
    simp [parse227, h]
  · intro r h hm
    simp only [String.toList] at hm
    simp [parse227, h, hm]
  · intro r g h hm
    simp only [String.toList] at hm
    simp [parse227, h, hm, Nat.shiftLeft_eq]

/-- C7 (witness): concrete instances of the three conditional branches. -/
theorem C7_witness :
    parse227 ⟨500, "err"⟩ = .proto "err" ∧
    parse227 ⟨227, "Entering Passive Mode"⟩ =
      .proto "No matching pattern for message:Entering Passive Mode" ∧
    parse227 ⟨227, "a(1,2,3,4,5,6)b"⟩ =
      .ok ("1" ++ "." ++ "2" ++ "." ++ "3" ++ "." ++ "4")
        (atoiDigits "5" * 256 + atoiDigits "6") :=
  ⟨C7_theorem.2.1 ⟨500, "err"⟩ (by decide),
   C7_theorem.2.2.1 ⟨227, "Entering Passive Mode"⟩ rfl (by decide),
   C7_theorem.2.2.2 ⟨227, "a(1,2,3,4,5,6)b"⟩ ⟨"1", "2", "3", "4", "5", "6"⟩ rfl (by decide)⟩

/-! ### Claims C6 and C10 -/

/-- A reply code whose class digit is 1, 2 or 3: the codes `Read` hands back
to the caller instead of converting into an error. -/
def inClass123 (c : Nat) : Prop :=
  classOf c = "1" ∨ classOf c = "2" ∨ classOf c = "3"

instance (c : Nat) : Decidable (inClass123 c) := by
  unfold inClass123
  infer_instance

theorem readReply_ok_of_inClass123 (c : Nat) (m : String) (h : inClass123 c) :
    readReply c m = .ok ⟨c, m⟩ := by
  rcases h with h | h | h <;> simp [readReply, h]

theorem readReply_err_of_not123 (c : Nat) (m : String) (h : ¬ inClass123 c) :
    ∃ e, readReply c m = RR.err e := by
  unfold inClass123 at h
  by_cases h4 : classOf c = "4"
  · exact ⟨.temp ("Temporary error: " ++ m), by simp [readReply, h, h4]⟩
  · by_cases h5 : classOf c = "5"
    · exact ⟨.perm ("Permanent error: " ++ m), by simp [readReply, h, h4, h5]⟩
    · exact ⟨.proto ("Protocol error: " ++ m), by simp [readReply, h, h4, h5]⟩

theorem readReply_ok_inv {c : Nat} {m : String} {t : Response}
    (h : readReply c m = .ok t) : inClass123 c ∧ t = ⟨c, m⟩ := by
  by_cases hc : inClass123 c
  · refine ⟨hc, ?_⟩
    rw [readReply_ok_of_inClass123 c m hc] at h
    injection h with h'
    exact h'.symm
  · obtain ⟨e, he⟩ := readReply_err_of_not123 c m hc
    rw [he] at h
    cases h

/-- The reply `Login` applies its final class-2 check to: the first of the
three replies at which the class-3 chain stops. -/
def loginFinalReply (c1 c2 c3 : Nat) (m1 m2 m3 : String) : Nat × String :=
  if classOf c1 ≠ "3" then (c1, m1)
  else if classOf c2 ≠ "3" then (c2, m2)
  else (c3, m3)

theorem login_cmds (u p a m1 m2 m3 : String) (c1 c2 c3 : Nat) :
    (login u p a [(c1, m1), (c2, m2), (c3, m3)]).cmds =
      appendParameters (ftpCmdStrings .USER_FTP_CMD) [effectiveUser u]
        :: ((if classOf c1 = "3"
              then [appendParameters (ftpCmdStrings .PASSWORD_FTP_CMD) [effectivePass u p]]
              else [])
          ++ (if classOf c1 = "3" ∧ classOf c2 = "3"
              then [appendParameters (ftpCmdStrings .ACCT_FTP_CMD) [a]]
              else [])) := by
  by_cases h1 : classOf c1 = "3"
  · have hr1 : readReply c1 m1 = .ok ⟨c1, m1⟩ :=
      readReply_ok_of_inClass123 c1 m1 (Or.inr (Or.inr h1))
    by_cases h2 : classOf c2 = "3"
    · have hr2 : readReply c2 m2 = .ok ⟨c2, m2⟩ :=
        readReply_ok_of_inClass123 c2 m2 (Or.inr (Or.inr h2))
      cases hr3 : readReply c3 m3 with
      | ok t3 =>
        simp [login, hr1, hr2, hr3, loginAcctStage, loginFinish, getFirstChar, h1, h2,
          apply_ite, effectivePass]
      | err e3 =>
        simp [login, hr1, hr2, hr3, loginAcctStage, loginFinish, getFirstChar, h1, h2,
          apply_ite, effectivePass]
    · cases hr2 : readReply c2 m2 with
      | ok t2 =>
        obtain ⟨-, rfl⟩ := readReply_ok_inv hr2
        simp [login, hr1, hr2, loginAcctStage, loginFinish, getFirstChar, h1, h2,
          apply_ite, effectivePass]
      | err e2 =>
        simp [login, hr1, hr2, loginAcctStage, loginFinish, getFirstChar, h1, h2,
          apply_ite, effectivePass]
  · cases hr1 : readReply c1 m1 with
    | ok t1 =>
      obtain ⟨-, rfl⟩ := readReply_ok_inv hr1
      simp [login, hr1, loginAcctStage, loginFinish, getFirstChar, h1, apply_ite]
    | err e1 =>
      simp [login, hr1, loginAcctStage, loginFinish, getFirstChar, h1, apply_ite]

theorem login_result (u p a m1 m2 m3 : String) (c1 c2 c3 : Nat)
    (hh1 : inClass123 c1) (hh2 : classOf c1 = "3" → inClass123 c2)
    (hh3 : classOf c1 = "3" → classOf c2 = "3" → inClass123 c3) :
    (login u p a [(c1, m1), (c2, m2), (c3, m3)]).result =
      (if classOf (loginFinalReply c1 c2 c3 m1 m2 m3).1 = "2"
       then RR.ok ⟨(loginFinalReply c1 c2 c3 m1 m2 m3).1, (loginFinalReply c1 c2 c3 m1 m2 m3).2⟩
       else RR.err (.reply ("Reply error: " ++ (loginFinalReply c1 c2 c3 m1 m2 m3).2))) := by
  have hr1 : readReply c1 m1 = .ok ⟨c1, m1⟩ := readReply_ok_of_inClass123 c1 m1 hh1
  by_cases h1 : classOf c1 = "3"
  · have hr2 : readReply c2 m2 = .ok ⟨c2, m2⟩ := readReply_ok_of_inClass123 c2 m2 (hh2 h1)
    by_cases h2 : classOf c2 = "3"
    · have hr3 : readReply c3 m3 = .ok ⟨c3, m3⟩ :=
        readReply_ok_of_inClass123 c3 m3 (hh3 h1 h2)
      simp [login, hr1, hr2, hr3, loginAcctStage, loginFinish, getFirstChar, h1, h2,
        loginFinalReply, ite_not, apply_ite]
    · simp [login, hr1, hr2, loginAcctStage, loginFinish, getFirstChar, h1, h2,
        loginFinalReply, ite_not, apply_ite]
  · simp [login, hr1, loginAcctStage, loginFinish, getFirstChar, h1, loginFinalReply, ite_not,
      apply_ite]

/-- C6: `Login` sends USER with the username defaulted to "anonymous" when
empty; it sends PASS — with the password defaulted to "anonymous@" for a
passwordless anonymous login — exactly when the USER reply has class 3; it
sends ACCT exactly when the reply after PASS still has class 3; and whenever
the replies it reads are ones `Read` hands back (class 1/2/3), it returns
the final reply if that reply's class is 2 and fails with the
`NewErrReply`-wrapped reply error otherwise. -/
theorem C6_theorem (u p a m1 m2 m3 : String) (c1 c2 c3 : Nat) :
    (login u p a [(c1, m1), (c2, m2), (c3, m3)]).cmds =
      appendParameters (ftpCmdStrings .USER_FTP_CMD) [effectiveUser u]
        :: ((if classOf c1 = "3"
              then [appendParameters (ftpCmdStrings .PASSWORD_FTP_CMD) [effectivePass u p]]
              else [])
          ++ (if classOf c1 = "3" ∧ classOf c2 = "3"
              then [appendParameters (ftpCmdStrings .ACCT_FTP_CMD) [a]]
              else [])) ∧
    (inClass123 c1 → (classOf c1 = "3" → inClass123 c2) →
      (classOf c1 = "3" → classOf c2 = "3" → inClass123 c3) →
      (login u p a [(c1, m1), (c2, m2), (c3, m3)]).result =
        (if classOf (loginFinalReply c1 c2 c3 m1 m2 m3).1 = "2"
         then RR.ok ⟨(loginFinalReply c1 c2 c3 m1 m2 m3).1, (loginFinalReply c1 c2 c3 m1 m2 m3).2⟩
         else RR.err (.reply ("Reply error: " ++ (loginFinalReply c1 c2 c3 m1 m2 m3).2)))) :=
  ⟨login_cmds u p a m1 m2 m3 c1 c2 c3,
   fun hh1 hh2 hh3 => login_result u p a m1 m2 m3 c1 c2 c3 hh1 hh2 hh3⟩

/-- C6 (witness): an anonymous login against replies 331 (send password)
then 230 (logged in): USER anonymous and PASS anonymous@ are sent, no ACCT,
and the 230 reply is returned. -/
theorem C6_witness :
    (login "" "" "" [(331, "m1"), (230, "done"), (999, "x")]).cmds =
      appendParameters (ftpCmdStrings .USER_FTP_CMD) [effectiveUser ""]
        :: ((if classOf 331 = "3"
              then [appendParameters (ftpCmdStrings .PASSWORD_FTP_CMD) [effectivePass "" ""]]
              else [])
          ++ (if classOf 331 = "3" ∧ classOf 230 = "3"
              then [appendParameters (ftpCmdStrings .ACCT_FTP_CMD) [""]]
              else [])) ∧
    (login "" "" "" [(331, "m1"), (230, "done"), (999, "x")]).result =
      (if classOf (loginFinalReply 331 230 999 "m1" "done" "x").1 = "2"
       then RR.ok ⟨(loginFinalReply 331 230 999 "m1" "done" "x").1,
                   (loginFinalReply 331 230 999 "m1" "done" "x").2⟩
       else RR.err (.reply ("Reply error: " ++ (loginFinalReply 331 230 999 "m1" "done" "x").2))) :=
  have h := C6_theorem "" "" "" "m1" "done" "x" 331 230 999
  ⟨h.1, h.2 (by decide) (by decide) (by decide)⟩

/-- C10: whenever `SendAndRead` on the SIZE command fails (in particular for
every 4xx/5xx reply, which `Read` converts into an error with a nil
response), `Size` reads `Code` from the nil response and panics — the error
is never checked first; and no non-panicking return of `Size` ever carries a
non-nil error, so the error is never propagated as `Size`'s return value. -/
theorem C10_theorem :
    (∀ e : FtpError, sizeCall (.err e) = .nilPanic) ∧
    (∀ c : Nat, ∀ m : String, ¬ inClass123 c → sizeCall (readReply c m) = .nilPanic) ∧
    (∀ sr : RR, ∀ v : Int, ∀ eo : Option FtpError, sizeCall sr = .ok v eo → eo = none) := by
  refine ⟨fun e => rfl, ?_, ?_⟩
  · intro c m h
    obtain ⟨e, he⟩ := readReply_err_of_not123 c m h
    rw [he]
    rfl
  · intro sr v eo h
    cases sr with
    | err e => simp [sizeCall] at h
    | ok resp =>
      by_cases h213 : resp.Code = 213
      · cases hsl : goSliceFrom resp.Message 3 with
        | none => simp [sizeCall, h213, hsl] at h
        | some tail =>
          simp [sizeCall, h213, hsl] at h
          exact h.2.symm
      · simp [sizeCall, h213] at h
        exact h.2.symm

/-- C10 (witness): a 550 error reply to SIZE panics on the nil response; a
213 reply returns the parsed size with a nil error. -/
theorem C10_witness :
    sizeCall (RR.err (.temp "boom")) = .nilPanic ∧
    sizeCall (readReply 550 "no file") = .nilPanic ∧
    (none : Option FtpError) = none :=
  ⟨C10_theorem.1 (.temp "boom"),
   C10_theorem.2.1 550 "no file" (by decide),
   C10_theorem.2.2 (readReply 213 "213 99") 99 none (by decide)⟩

end Ftp4go
